import Mathlib

/-!
Verification of the action execution layer in `backend/actions/actions.py`.

The four Rasa custom actions are shallowly embedded as pure Lean
functions.  Each action consumes the process environment (the values the
module reads from `os.getenv` at import time), the latest user message
text, and an oracle describing what the external dependency did on this
invocation (the HTTP request raising, or returning a status code and an
optional parsed JSON body; for the mail transport, which protocol step
raised first, if any).  Each action returns the list of messages passed
to `dispatcher.utter_message`, the list of events it returns to the SDK,
and a record of the external interactions it attempted.
-/

/-- One call to `dispatcher.utter_message`: `text=` and optional `image=`. -/
structure OutgoingMessage where
  text : String
  image : Option String := none
deriving DecidableEq, Repr

/-- A Rasa state-mutation event (`rasa_sdk.events`, e.g. `SlotSet`).
The module imports `SlotSet` but no action ever constructs an event. -/
inductive Event where
  | slotSet (slot : String) (value : String)
deriving DecidableEq, Repr

/-- The configuration surface read from the environment at import time:
`GEMINI_API_KEY`, `IMAGE_API_KEY`, `EMAIL_ADDRESS`, `EMAIL_PASSWORD`.
`os.getenv` yields `None` for an unset variable, hence `Option String`. -/
structure Env where
  geminiApiKey : Option String
  imageApiKey : Option String
  emailAddress : Option String
  emailPassword : Option String
deriving DecidableEq, Repr

/-- Rendering of an `Option String` inside a Python f-string:
`None` prints as the text `None`. -/
def pyShowOpt : Option String → String
  | none => "None"
  | some s => s

/-- Python truthiness test `not x` for an optional string:
true exactly on `None` and on the empty string. -/
def pyFalsy : Option String → Bool
  | none => true
  | some s => s == ""

/-- The characters Python `str.strip()` removes by default. -/
def pyIsSpace (c : Char) : Bool :=
  c == ' ' || c == '\t' || c == '\n' || c == '\r' || c == '\x0b' || c == '\x0c'

/-- Python `str.strip()` on the underlying character list. -/
def pyStripList (l : List Char) : List Char :=
  ((l.dropWhile pyIsSpace).reverse.dropWhile pyIsSpace).reverse

/-- Python `str.strip()`: drop leading and trailing whitespace. -/
def pyStrip (s : String) : String :=
  String.mk (pyStripList s.data)

/-- Worker for `pyReplace`: scan left to right, replacing each
non-overlapping occurrence of `old`.  Fuel is the length of the scanned
list, so it never runs out; structural recursion on the fuel keeps the
function kernel-reducible. -/
def pyReplaceGo (old new : List Char) : Nat → List Char → List Char
  | _, [] => []
  | 0, l => l
  | Nat.succ fuel, c :: rest =>
    if old.isPrefixOf (c :: rest) && !(old.isEmpty) then
      new ++ pyReplaceGo old new fuel (List.drop (old.length - 1) rest)
    else
      c :: pyReplaceGo old new fuel rest

/-- Python `s.replace(old, new)` for a non-empty pattern `old` (the
source only ever uses the pattern `/imagine`; the empty-pattern corner
of the Python builtin is not modelled). -/
def pyReplace (s old new : String) : String :=
  String.mk (pyReplaceGo old.data new.data s.data.length s.data)

/-- Parsed JSON value, the shape `response.json()` yields. -/
inductive Json where
  | null
  | bool (b : Bool)
  | num (n : Int)
  | str (s : String)
  | arr (elems : List Json)
  | obj (fields : List (String × Json))

/-- Python `j[key]` on a parsed JSON object; `none` models the raised
`KeyError`/`TypeError` (caught by the enclosing handler). -/
def Json.getField : Json → String → Option Json
  | .obj fields, key => fields.lookup key
  | _, _ => none

/-- Python `j[i]` on a parsed JSON array; `none` models the raised
`IndexError`/`TypeError` (caught by the enclosing handler). -/
def Json.getIdx : Json → Nat → Option Json
  | .arr elems, i => elems.get? i
  | _, _ => none

/-- Stringification a leaf receives downstream (f-string interpolation /
the messaging layer).  A string payload is passed through verbatim; the
composite cases are rendered opaquely, no claim depends on them. -/
def Json.render : Json → String
  | .null => "None"
  | .bool b => if b then "True" else "False"
  | .num n => toString n
  | .str s => s
  | .arr _ => "<list>"
  | .obj _ => "<dict>"

/-- The field path `gemini_response[candidates][0][content][parts][0][text]`
walked by `ActionFinancialAdvice.run`; `none` when any step raises. -/
def extractGeminiText (j : Json) : Option Json :=
  (((((j.getField "candidates").bind (Json.getIdx · 0)).bind
      (Json.getField · "content")).bind
      (Json.getField · "parts")).bind
      (Json.getIdx · 0)).bind
      (Json.getField · "text")

/-- The field path `data[artifacts][0][base64]` walked by
`ActionGenerateImage.run`; `none` when any step raises. -/
def extractImageB64 (j : Json) : Option Json :=
  ((j.getField "artifacts").bind (Json.getIdx · 0)).bind (Json.getField · "base64")

/-- Outcome of one `requests.post` call, as observed by the action:
either the call raised (connection error, timeout, too many redirects,
...), or a response arrived with a status code and a body that either
parsed as JSON or did not (`none` models `response.json()` raising). -/
inductive HttpOutcome where
  | raised
  | response (status : Nat) (body : Option Json)

/-- `requests.Response.raise_for_status` raises exactly for client and
server error codes, 400 to 599. -/
def raisesForStatus (status : Nat) : Prop :=
  400 ≤ status ∧ status < 600

instance (status : Nat) : Decidable (raisesForStatus status) :=
  inferInstanceAs (Decidable (400 ≤ status ∧ status < 600))

/-- Value of a base64 alphabet character, `none` on any other character. -/
def b64Val (c : Char) : Option Nat :=
  if 'A' ≤ c ∧ c ≤ 'Z' then some (c.toNat - 65)
  else if 'a' ≤ c ∧ c ≤ 'z' then some (c.toNat - 97 + 26)
  else if '0' ≤ c ∧ c ≤ '9' then some (c.toNat - 48 + 52)
  else if c = '+' then some 62
  else if c = '/' then some 63
  else none

/-- Standard base64 decoding of a character list into bytes (as `Nat`
values below 256); `none` on a malformed encoding. -/
def base64DecodeVals : List Char → Option (List Nat)
  | [] => some []
  | [a, b, '=', '='] =>
    (b64Val a).bind fun va =>
      (b64Val b).bind fun vb =>
        some [va * 4 + vb / 16]
  | [a, b, c, '='] =>
    (b64Val a).bind fun va =>
      (b64Val b).bind fun vb =>
        (b64Val c).bind fun vc =>
          some [va * 4 + vb / 16, (vb % 16) * 16 + vc / 4]
  | a :: b :: c :: d :: rest =>
    (b64Val a).bind fun va =>
      (b64Val b).bind fun vb =>
        (b64Val c).bind fun vc =>
          (b64Val d).bind fun vd =>
            (base64DecodeVals rest).bind fun tail =>
              some ([va * 4 + vb / 16, (vb % 16) * 16 + vc / 4, (vc % 4) * 64 + vd] ++ tail)
  | _ => none

/-- Base64 decoding of a string. -/
def base64Decode (s : String) : Option (List Nat) :=
  base64DecodeVals s.data

/-- The fixed head of the data URI built by the image action. -/
def dataUriHead : String := "data:image/png;base64,"

/-- Decode the base64 payload of a `data:image/png;base64,` URI: drop
the 22 head characters, decode the rest. -/
def dataUriDecode (u : String) : Option (List Nat) :=
  base64DecodeVals (u.data.drop 22)

/-! ## Constants from the module -/

def GEMINI_API_URL : String :=
  "https://generativelanguage.googleapis.com/v1beta/models/gemini-1.5-pro-latest:generateContent"

def STABILITY_API_URL : String :=
  "https://api.stability.ai/v1/generation/stable-diffusion-v1-6/text-to-image"

def TO_EMAIL : String := "professionalbusinessadvisory@gmail.com"

/-! ## ActionFinancialAdvice -/

/-- The instructional template the user message is embedded into. -/
def advicePrompt (userMessage : String) : String :=
  "As a financial advisor, please provide helpful advice for: " ++ userMessage

/-- The fixed fallback text of the financial advice action. -/
def adviceFallback : String :=
  "I apologize, but I\x27m having trouble accessing my financial knowledge right now. Please try again in a moment."

/-- One attempted `requests.post` to the text-generation endpoint.  The
source passes no `timeout=` argument, so the recorded timeout is `none`
(the `requests` default: unbounded). -/
structure GeminiCall where
  url : String
  promptText : String
  timeout : Option Nat
deriving DecidableEq, Repr

structure FinancialResult where
  messages : List OutgoingMessage
  events : List Event
  calls : List GeminiCall
deriving DecidableEq, Repr

/-- The text `ActionFinancialAdvice.run` utters for a given call
outcome: the extracted candidate text verbatim on success, the fixed
fallback whenever the `try` block raised (post raising, 4xx/5xx status,
body not JSON, or a missing field on the candidate path). -/
def adviceText : HttpOutcome → String
  | .raised => adviceFallback
  | .response status body =>
    if raisesForStatus status then adviceFallback
    else
      match body with
      | none => adviceFallback
      | some j =>
        match extractGeminiText j with
        | none => adviceFallback
        | some v => v.render

/-- `ActionFinancialAdvice.run`: build the payload from the template,
post it once (no retry), utter exactly one message, return no events. -/
def ActionFinancialAdvice.run (env : Env) (userMessage : String)
    (out : HttpOutcome) : FinancialResult :=
  { messages := [⟨adviceText out, none⟩]
    events := []
    calls := [⟨GEMINI_API_URL ++ "?key=" ++ pyShowOpt env.geminiApiKey,
               advicePrompt userMessage, none⟩] }

/-! ## ActionGenerateImage -/

def imageUsage : String :=
  "Please provide a prompt for image generation. Use \x27/imagine [your prompt]\x27"

def imageFallback : String :=
  "I apologize, but I\x27m having trouble generating images right now. Please try again in a moment."

def imageCaption : String := "Here\x27s your generated image:"

/-- One attempted `requests.post` to the image endpoint, with the fixed
generation parameters of the source.  No `timeout=` argument is passed,
so the recorded timeout is `none`. -/
structure ImageCall where
  url : String
  prompt : String
  cfgScale : Nat
  height : Nat
  width : Nat
  samples : Nat
  steps : Nat
  timeout : Option Nat
deriving DecidableEq, Repr

structure ImageResult where
  messages : List OutgoingMessage
  events : List Event
  calls : List ImageCall
deriving DecidableEq, Repr

/-- The single message the image action utters once the request was
issued: caption plus data URI on success, the fixed fallback whenever
the `try` block raised. -/
def imageMsg : HttpOutcome → OutgoingMessage
  | .raised => ⟨imageFallback, none⟩
  | .response status body =>
    if raisesForStatus status then ⟨imageFallback, none⟩
    else
      match body with
      | none => ⟨imageFallback, none⟩
      | some j =>
        match extractImageB64 j with
        | none => ⟨imageFallback, none⟩
        | some v => ⟨imageCaption, some (dataUriHead ++ v.render)⟩

/-- `ActionGenerateImage.run`: compute the prompt via
`user_message.replace(trigger, empty).strip()`; short-circuit with the
usage message on an empty prompt; raise `ValueError` before the request
when the key is falsy (caught, fallback); otherwise post once and utter
one message.  No events on any path. -/
def ActionGenerateImage.run (env : Env) (userMessage : String)
    (out : HttpOutcome) : ImageResult :=
  let prompt := pyStrip (pyReplace userMessage "/imagine" "")
  if prompt = "" then
    { messages := [⟨imageUsage, none⟩], events := [], calls := [] }
  else if pyFalsy env.imageApiKey = true then
    { messages := [⟨imageFallback, none⟩], events := [], calls := [] }
  else
    { messages := [imageMsg out]
      events := []
      calls := [⟨STABILITY_API_URL, prompt, 7, 512, 512, 1, 30, none⟩] }

/-! ## ActionGetFAQ -/

def faqMessage : String :=
  "Here are some frequently asked questions:\n\n**Brand**\n• What is Impact Ventures? - Impact Ventures is a brand that curates premium colognes and AI models, blending craftsmanship with cutting-edge innovation.\n• Where are you based? - We operate online, serving customers worldwide with exclusive fragrances and AI-powered product recommendations.\n\n**Ordering & Shipping**\n• How can I place an order? - Simply browse our collection, select your favorite cologne, and proceed to checkout.\n• Do you offer international shipping? - Yes! We ship globally. Shipping rates and delivery times vary based on location.\n\n**Product**\n• Are your colognes made with natural ingredients? - We prioritize high-quality, ethically sourced ingredients.\n• How should I apply cologne for best results? - Apply to pulse points—wrists, neck, and behind the ears.\n\nFor more detailed FAQ information, please visit our FAQ page on the website."

structure FaqResult where
  messages : List OutgoingMessage
  events : List Event
deriving DecidableEq, Repr

/-- `ActionGetFAQ.run`: utter the fixed reference text, no external
interaction, no events. -/
def ActionGetFAQ.run : FaqResult :=
  { messages := [⟨faqMessage, none⟩], events := [] }

/-! ## ActionSubmitSuggestion -/

def suggestSuccess : String :=
  "Thank you for your suggestion! It has been sent to our team for review."

def suggestFallback : String :=
  "Thank you for your suggestion! I\x27ve noted it down for our team."

/-- The HTML body template with the user text embedded verbatim. -/
def suggestionBody (userMessage : String) : String :=
  "\n            <html><body>\n            <h2 style=\"color: #014B7B;\">New Service Suggestion</h2>\n            <p style=\"font-size: 16px;\">A new suggestion has been submitted via the PBASC chatbot:</p>\n            <p style=\"font-size: 16px; color: #4CAF50;\">\"" ++
    userMessage ++ "\"</p>\n            </body></html>\n            "

/-- The MIME message assembled before the connection is opened. -/
structure Envelope where
  fromAddr : Option String
  toAddr : String
  subject : String
  body : String
deriving DecidableEq, Repr

/-- The protocol steps of the submission, in source order:
`smtplib.SMTP(...)` (connect), `starttls`, `login`, `sendmail`, `quit`. -/
inductive SmtpStep where
  | connect
  | starttls
  | login
  | sendmail
  | quit
deriving DecidableEq, Repr

/-- Outcome of the mail-transport interaction: every step succeeded, or
the named step was the first to raise. -/
inductive SmtpOutcome where
  | ok
  | failAt (step : SmtpStep)
deriving DecidableEq, Repr

/-- Result of one suggestion submission.  `opened` counts connections
successfully established (the `smtplib.SMTP` constructor connects);
`closed` counts completed `server.quit()` calls; `connectTimeout` is the
timeout argument of the constructor call — absent in the source, hence
`none` (the library default). -/
structure SuggestResult where
  messages : List OutgoingMessage
  events : List Event
  envelope : Envelope
  opened : Nat
  closed : Nat
  connectTimeout : Option Nat
deriving DecidableEq, Repr

/-- `ActionSubmitSuggestion.run`: build the envelope, connect,
starttls, login, sendmail, quit — any step raising jumps to the handler,
which utters the softer fallback.  `server.quit()` is the last statement
of the `try` block, so a step raising before it leaves the connection
unclosed.  No events on any path. -/
def ActionSubmitSuggestion.run (env : Env) (userMessage : String)
    (out : SmtpOutcome) : SuggestResult :=
  let envl : Envelope :=
    ⟨env.emailAddress, TO_EMAIL, "New Service Suggestion for PBASC",
     suggestionBody userMessage⟩
  match out with
  | .ok =>
    { messages := [⟨suggestSuccess, none⟩], events := [], envelope := envl
      opened := 1, closed := 1, connectTimeout := none }
  | .failAt .connect =>
    { messages := [⟨suggestFallback, none⟩], events := [], envelope := envl
      opened := 0, closed := 0, connectTimeout := none }
  | .failAt _ =>
    { messages := [⟨suggestFallback, none⟩], events := [], envelope := envl
      opened := 1, closed := 0, connectTimeout := none }

/-! ## Derived predicates used in claim statements -/

/-- All messages of a list carry non-empty text. -/
def msgsNonEmpty (ms : List OutgoingMessage) : Bool :=
  ms.all fun m => !(m.text == "")

/-- The text-generation call failed in the sense handled by the `try`
block: post raised, 4xx/5xx status, body not JSON, or candidate path
missing. -/
def geminiFailed : HttpOutcome → Bool
  | .raised => true
  | .response status body =>
    if raisesForStatus status then true
    else
      match body with
      | none => true
      | some j => (extractGeminiText j).isNone

/-- The text-generation call succeeded and the extracted candidate text
renders as the empty string. -/
def geminiEmptySuccess : HttpOutcome → Bool
  | .raised => false
  | .response status body =>
    if raisesForStatus status then false
    else
      match body with
      | none => false
      | some j =>
        match extractGeminiText j with
        | none => false
        | some v => v.render == ""

/-- The payload the image action extracts on the success path, `none`
whenever the `try` block would raise instead. -/
def imageSuccessPayload : HttpOutcome → Option Json
  | .raised => none
  | .response status body =>
    if raisesForStatus status then none
    else
      match body with
      | none => none
      | some j => extractImageB64 j

/-! ## Concrete inputs for witnesses and counterexamples -/

/-- Environment with nothing configured. -/
def env0 : Env := ⟨none, none, none, none⟩

/-- Environment with every credential configured. -/
def envAll : Env := ⟨some "gk", some "ik", some "addr@example.com", some "pw"⟩

/-- A well-formed Gemini success body whose candidate text is empty. -/
def emptyTextBody : Json :=
  Json.obj [
    ("candidates", Json.arr [
      Json.obj [
        ("content", Json.obj [
          ("parts", Json.arr [
            Json.obj [("text", Json.str "")]])])]])]

/-- A well-formed Gemini success body with a non-empty candidate text. -/
def adviceBody : Json :=
  Json.obj [
    ("candidates", Json.arr [
      Json.obj [
        ("content", Json.obj [
          ("parts", Json.arr [
            Json.obj [("text", Json.str "mock advice")]])])]])]

/-- A well-formed Stability success body with `artifacts[0].base64 = AAAA`. -/
def imageBody : Json :=
  Json.obj [("artifacts", Json.arr [Json.obj [("base64", Json.str "AAAA")]])]

/-- The parse as the spec words it, a reference definition for
comparison (not translated from the source): strip one leading
occurrence of the trigger token, then trim surrounding whitespace. -/
def stripLeadingTokenSpec (tok s : String) : String :=
  if tok.data.isPrefixOf s.data then pyStrip (String.mk (s.data.drop tok.data.length))
  else pyStrip s

/-! ## Helper lemmas -/

/-- The uttered financial text is empty exactly when the call succeeded
with an empty extracted candidate text. -/
theorem adviceText_beq_empty (out : HttpOutcome) :
    (adviceText out == "") = geminiEmptySuccess out := by
  cases out with
  | raised => decide
  | response status body =>
    by_cases hr : raisesForStatus status
    · simp only [adviceText, geminiEmptySuccess, if_pos hr]
      decide
    · simp only [adviceText, geminiEmptySuccess, if_neg hr]
      cases body with
      | none => decide
      | some j =>
        cases hE : extractGeminiText j with
        | none => simp only [hE]; decide
        | some v => simp only [hE]

/-- Whatever the outcome, the image action message carries non-empty
text (caption on success, fallback otherwise). -/
theorem imageMsg_text_beq (out : HttpOutcome) :
    ((imageMsg out).text == "") = false := by
  cases out with
  | raised => decide
  | response status body =>
    by_cases hr : raisesForStatus status
    · simp only [imageMsg, if_pos hr]; decide
    · simp only [imageMsg, if_neg hr]
      cases body with
      | none => decide
      | some j =>
        cases hE : extractImageB64 j with
        | none =>
          simp only [hE]
          decide
        | some v =>
          simp only [hE]
          exact (by decide : (imageCaption == "") = false)

/-- A failed text-generation outcome makes the action utter the fixed
fallback. -/
theorem adviceText_of_failed (out : HttpOutcome)
    (h : geminiFailed out = true) : adviceText out = adviceFallback := by
  cases out with
  | raised => rfl
  | response status body =>
    by_cases hr : raisesForStatus status
    · simp only [adviceText, if_pos hr]
    · simp only [adviceText, if_neg hr]
      cases body with
      | none => rfl
      | some j =>
        cases hE : extractGeminiText j with
        | none => simp only [hE]
        | some v =>
          simp [geminiFailed, hr, hE] at h

/-! ## Claims -/

/-- C1 (counterexample): the claim says every invocation emits at least
one OutgoingMessage with non-empty text regardless of the outcome.  On
a successful text-generation response whose candidate text is the empty
string, the financial-advice action utters that text verbatim: the only
emitted message has empty text. -/
theorem C1_counterexample :
    (ActionFinancialAdvice.run env0 "hi"
        (HttpOutcome.response 200 (some emptyTextBody))).messages =
      [⟨"", none⟩] ∧
    msgsNonEmpty (ActionFinancialAdvice.run env0 "hi"
        (HttpOutcome.response 200 (some emptyTextBody))).messages = false :=
  ⟨rfl, rfl⟩

/-- C1 (amended): every invocation of each of the four actions emits
exactly one OutgoingMessage; its text is non-empty in every case except
when the text-generation call succeeds and the extracted candidate text
is itself empty, in which case it is emitted verbatim. -/
theorem C1_run_emits_one_message (env : Env) (um : String)
    (outG outI : HttpOutcome) (outS : SmtpOutcome) :
    (ActionFinancialAdvice.run env um outG).messages.length = 1 ∧
    (ActionGenerateImage.run env um outI).messages.length = 1 ∧
    ActionGetFAQ.run.messages.length = 1 ∧
    (ActionSubmitSuggestion.run env um outS).messages.length = 1 ∧
    msgsNonEmpty (ActionGenerateImage.run env um outI).messages = true ∧
    msgsNonEmpty ActionGetFAQ.run.messages = true ∧
    msgsNonEmpty (ActionSubmitSuggestion.run env um outS).messages = true ∧
    msgsNonEmpty (ActionFinancialAdvice.run env um outG).messages =
      !(geminiEmptySuccess outG) := by
  refine ⟨rfl, ?_, rfl, ?_, ?_, by decide, ?_, ?_⟩
  · by_cases h1 : pyStrip (pyReplace um "/imagine" "") = "" <;>
      by_cases h2 : pyFalsy env.imageApiKey = true <;>
      simp [ActionGenerateImage.run, h1, h2]
  · cases outS with
    | ok => rfl
    | failAt st => cases st <;> rfl
  · by_cases h1 : pyStrip (pyReplace um "/imagine" "") = "" <;>
      by_cases h2 : pyFalsy env.imageApiKey = true <;>
      simp [ActionGenerateImage.run, h1, h2, msgsNonEmpty, imageMsg_text_beq] <;>
      decide
  · cases outS with
    | ok => exact (by decide : msgsNonEmpty [⟨suggestSuccess, none⟩] = true)
    | failAt st =>
      cases st <;>
        exact (by decide : msgsNonEmpty [⟨suggestFallback, none⟩] = true)
  · simp [ActionFinancialAdvice.run, msgsNonEmpty, adviceText_beq_empty]

/-- C2 (counterexample): the claim says the mail connection is closed
exactly once before the action returns on every exit path.  When
`server.login` raises, the handler runs but `server.quit()` is never
reached: the connection was opened and never closed. -/
theorem C2_counterexample :
    (ActionSubmitSuggestion.run env0 "hi"
        (SmtpOutcome.failAt SmtpStep.login)).opened = 1 ∧
    (ActionSubmitSuggestion.run env0 "hi"
        (SmtpOutcome.failAt SmtpStep.login)).closed = 0 :=
  ⟨rfl, rfl⟩

/-- C2 (amended): the connection is opened whenever the connect step
succeeds and is closed exactly once on the all-steps-succeed path; on
any step raising after the connection is established the action still
returns one message, but the connection is never explicitly closed. -/
theorem C2_connection_lifecycle (env : Env) (um : String)
    (out : SmtpOutcome) :
    (ActionSubmitSuggestion.run env um out).opened =
      (if out = SmtpOutcome.failAt SmtpStep.connect then 0 else 1) ∧
    (ActionSubmitSuggestion.run env um out).closed =
      (if out = SmtpOutcome.ok then 1 else 0) ∧
    (ActionSubmitSuggestion.run env um out).messages.length = 1 := by
  cases out with
  | ok => exact ⟨rfl, rfl, rfl⟩
  | failAt st => cases st <;> exact ⟨rfl, rfl, rfl⟩

/-- C3 (counterexample): the claim treats every non-2xx status as a
failure, but `raise_for_status` raises only for 400..599.  A 301
response carrying a well-formed body is processed as a success: the
extracted advice is uttered, not the fixed fallback. -/
theorem C3_counterexample :
    (ActionFinancialAdvice.run env0 "m"
        (HttpOutcome.response 301 (some adviceBody))).messages =
      [⟨"mock advice", none⟩] ∧
    ("mock advice" : String) ≠ adviceFallback :=
  ⟨rfl, by decide⟩

/-- C3 (amended): when the text-generation call fails in the sense the
code handles — the post raising, a 4xx/5xx status, a body that is not
JSON, or a missing candidates/content/parts/text field — the action
emits exactly the fixed fallback text and attempts exactly one external
call. -/
theorem C3_failure_fallback_single_call (env : Env) (um : String)
    (out : HttpOutcome) (h : geminiFailed out = true) :
    (ActionFinancialAdvice.run env um out).messages =
      [⟨adviceFallback, none⟩] ∧
    (ActionFinancialAdvice.run env um out).calls.length = 1 := by
  refine ⟨?_, rfl⟩
  simp [ActionFinancialAdvice.run, adviceText_of_failed out h]

/-- Witness for C3 at a concrete failed outcome. -/
theorem C3_witness :
    geminiFailed HttpOutcome.raised = true ∧
    ((ActionFinancialAdvice.run env0 "hello" HttpOutcome.raised).messages =
        [⟨adviceFallback, none⟩] ∧
      (ActionFinancialAdvice.run env0 "hello" HttpOutcome.raised).calls.length = 1) :=
  ⟨rfl, C3_failure_fallback_single_call env0 "hello" HttpOutcome.raised rfl⟩

/-- C4 (counterexample): the claim says every external call is bounded
by a fixed timeout.  Neither `requests.post` call nor the `smtplib.SMTP`
constructor passes a timeout argument: every recorded timeout is `none`
(the library defaults, unbounded). -/
theorem C4_counterexample :
    ((ActionFinancialAdvice.run env0 "hi" HttpOutcome.raised).calls.map
        fun c => c.timeout) = [none] ∧
    ((ActionGenerateImage.run envAll "/imagine cat" HttpOutcome.raised).calls.map
        fun c => c.timeout) = [none] ∧
    (ActionSubmitSuggestion.run env0 "hi" SmtpOutcome.ok).connectTimeout = none :=
  ⟨rfl, rfl, rfl⟩

/-- C4 (amended): no external call specifies a timeout — the timeout
argument is absent from both HTTP requests and from the mail
connection, so the calls are not bounded by a fixed timeout; an
exception raised by a call, which is how a lower-layer timeout would
surface, takes the same fallback path as any other failure. -/
theorem C4_no_timeout_configured (env : Env) (um : String)
    (outG outI : HttpOutcome) (outS : SmtpOutcome) :
    ((ActionFinancialAdvice.run env um outG).calls.all
        fun c => c.timeout == none) = true ∧
    ((ActionGenerateImage.run env um outI).calls.all
        fun c => c.timeout == none) = true ∧
    (ActionSubmitSuggestion.run env um outS).connectTimeout = none ∧
    (ActionFinancialAdvice.run env um HttpOutcome.raised).messages =
      [⟨adviceFallback, none⟩] ∧
    (ActionSubmitSuggestion.run env um (SmtpOutcome.failAt SmtpStep.connect)).messages =
      [⟨suggestFallback, none⟩] := by
  refine ⟨rfl, ?_, ?_, rfl, rfl⟩
  · by_cases h1 : pyStrip (pyReplace um "/imagine" "") = "" <;>
      by_cases h2 : pyFalsy env.imageApiKey = true <;>
      simp [ActionGenerateImage.run, h1, h2]
  · cases outS with
    | ok => rfl
    | failAt st => cases st <;> rfl

/-- C5 (counterexample): the claim says the prompt equals the message
with the leading trigger token stripped and trimmed.  The code calls
`replace`, which removes every occurrence: on a message that begins
with the token and repeats it later, the sent prompt drops both copies,
while stripping only the leading token keeps the second one. -/
theorem C5_counterexample :
    ((ActionGenerateImage.run envAll "/imagine /imagine cat"
        HttpOutcome.raised).calls.map fun c => c.prompt) = ["cat"] ∧
    stripLeadingTokenSpec "/imagine" "/imagine /imagine cat" = "/imagine cat" ∧
    ("cat" : String) ≠ "/imagine cat" :=
  ⟨rfl, rfl, by decide⟩

/-- C5 (amended): the prompt the image action sends equals the user
message with every occurrence of the trigger token removed and
surrounding whitespace trimmed; it is sent exactly when this prompt is
non-empty and the API key is configured. -/
theorem C5_prompt_sent (env : Env) (um : String) (out : HttpOutcome) :
    ((ActionGenerateImage.run env um out).calls.map fun c => c.prompt) =
      (if pyStrip (pyReplace um "/imagine" "") = "" ∨
          pyFalsy env.imageApiKey = true then []
       else [pyStrip (pyReplace um "/imagine" "")]) := by
  by_cases h1 : pyStrip (pyReplace um "/imagine" "") = "" <;>
    by_cases h2 : pyFalsy env.imageApiKey = true <;>
    simp [ActionGenerateImage.run, h1, h2]

/-- C6: when the user message reduces to an empty prompt after removing
the trigger token and trimming, the image action performs no external
call and emits the usage-instruction message. -/
theorem C6_empty_prompt_short_circuit (env : Env) (um : String)
    (out : HttpOutcome) (h : pyStrip (pyReplace um "/imagine" "") = "") :
    (ActionGenerateImage.run env um out).messages = [⟨imageUsage, none⟩] ∧
    (ActionGenerateImage.run env um out).calls = [] := by
  simp [ActionGenerateImage.run, h]

/-- Witness for C6 at the trigger token followed only by whitespace. -/
theorem C6_witness :
    pyStrip (pyReplace "/imagine " "/imagine" "") = "" ∧
    ((ActionGenerateImage.run env0 "/imagine " HttpOutcome.raised).messages =
        [⟨imageUsage, none⟩] ∧
      (ActionGenerateImage.run env0 "/imagine " HttpOutcome.raised).calls = []) :=
  ⟨rfl, C6_empty_prompt_short_circuit env0 "/imagine " HttpOutcome.raised rfl⟩

/-- C7: when the image API credential is missing (unset or empty, the
truthiness test of the source) and the prompt is non-empty, the action
raises before issuing the request: no external call is made and the
fixed image fallback message is emitted, the same message as on a
runtime failure. -/
theorem C7_missing_key_no_call (env : Env) (um : String)
    (out : HttpOutcome) (hk : pyFalsy env.imageApiKey = true)
    (hp : pyStrip (pyReplace um "/imagine" "") ≠ "") :
    (ActionGenerateImage.run env um out).calls = [] ∧
    (ActionGenerateImage.run env um out).messages = [⟨imageFallback, none⟩] ∧
    (ActionGenerateImage.run env um out).messages =
      (ActionGenerateImage.run envAll um HttpOutcome.raised).messages := by
  have hrun : ActionGenerateImage.run env um out =
      { messages := [⟨imageFallback, none⟩], events := [], calls := [] } := by
    simp [ActionGenerateImage.run, hp, hk]
  refine ⟨by rw [hrun], by rw [hrun], ?_⟩
  rw [hrun]
  simp [ActionGenerateImage.run, hp, pyFalsy, envAll, imageMsg]

/-- Witness for C7: no key configured, prompt `cat`. -/
theorem C7_witness :
    pyFalsy env0.imageApiKey = true ∧
    pyStrip (pyReplace "/imagine cat" "/imagine" "") ≠ "" ∧
    ((ActionGenerateImage.run env0 "/imagine cat" HttpOutcome.raised).calls = [] ∧
      (ActionGenerateImage.run env0 "/imagine cat" HttpOutcome.raised).messages =
        [⟨imageFallback, none⟩] ∧
      (ActionGenerateImage.run env0 "/imagine cat" HttpOutcome.raised).messages =
        (ActionGenerateImage.run envAll "/imagine cat" HttpOutcome.raised).messages) :=
  ⟨rfl, by decide,
    C7_missing_key_no_call env0 "/imagine cat" HttpOutcome.raised rfl (by decide)⟩

/-- C8: on a successful image response whose `artifacts[0].base64`
field holds a base64 string encoding some bytes, the emitted message
embeds that string verbatim after the `data:image/png;base64,` head, so
decoding the data URI payload yields exactly those bytes. -/
theorem C8_image_roundtrip (env : Env) (um : String) (out : HttpOutcome)
    (s : String) (bs : List Nat)
    (hk : pyFalsy env.imageApiKey = false)
    (hp : pyStrip (pyReplace um "/imagine" "") ≠ "")
    (hs : imageSuccessPayload out = some (Json.str s))
    (hb : base64Decode s = some bs) :
    (ActionGenerateImage.run env um out).messages =
      [⟨imageCaption, some (dataUriHead ++ s)⟩] ∧
    dataUriDecode (dataUriHead ++ s) = some bs := by
  constructor
  · have hmsg : imageMsg out = ⟨imageCaption, some (dataUriHead ++ s)⟩ := by
      cases out with
      | raised => simp [imageSuccessPayload] at hs
      | response status body =>
        cases body with
        | none =>
          by_cases hr : raisesForStatus status <;>
            simp [imageSuccessPayload, hr] at hs
        | some j =>
          by_cases hr : raisesForStatus status
          · simp [imageSuccessPayload, hr] at hs
          · simp [imageSuccessPayload, hr] at hs
            simp [imageMsg, hr, hs, Json.render]
    simp [ActionGenerateImage.run, hp, hk, hmsg]
  · have hdrop : (dataUriHead ++ s).data.drop 22 = s.data := by
      obtain ⟨l⟩ := s
      rfl
    unfold dataUriDecode
    rw [hdrop]
    exact hb

/-- Witness for C8 at `artifacts[0].base64 = AAAA`, which encodes the
bytes `[0, 0, 0]`. -/
theorem C8_witness :
    pyFalsy envAll.imageApiKey = false ∧
    pyStrip (pyReplace "/imagine cat" "/imagine" "") ≠ "" ∧
    imageSuccessPayload (HttpOutcome.response 200 (some imageBody)) =
      some (Json.str "AAAA") ∧
    base64Decode "AAAA" = some [0, 0, 0] ∧
    ((ActionGenerateImage.run envAll "/imagine cat"
        (HttpOutcome.response 200 (some imageBody))).messages =
      [⟨imageCaption, some (dataUriHead ++ "AAAA")⟩] ∧
      dataUriDecode (dataUriHead ++ "AAAA") = some [0, 0, 0]) :=
  ⟨rfl, by decide, rfl, rfl,
    C8_image_roundtrip envAll "/imagine cat"
      (HttpOutcome.response 200 (some imageBody)) "AAAA" [0, 0, 0]
      rfl (by decide) rfl rfl⟩

/-- C9: invoking the financial-advice action on the empty user message
is valid — the run function is total, so nothing is raised — it embeds
the empty message into the fixed instructional template and, whatever
the call outcome, resolves to exactly one message. -/
theorem C9_empty_message_safe (env : Env) (out : HttpOutcome) :
    (ActionFinancialAdvice.run env "" out).messages.length = 1 ∧
    ((ActionFinancialAdvice.run env "" out).calls.map
        fun c => c.promptText) = [advicePrompt ""] ∧
    advicePrompt "" =
      "As a financial advisor, please provide helpful advice for: " :=
  ⟨rfl, rfl, rfl⟩

/-- C10: on every input and every outcome, each of the four actions
returns the empty list of state-mutation events. -/
theorem C10_no_events (env : Env) (um : String)
    (outG outI : HttpOutcome) (outS : SmtpOutcome) :
    (ActionFinancialAdvice.run env um outG).events = [] ∧
    (ActionGenerateImage.run env um outI).events = [] ∧
    ActionGetFAQ.run.events = [] ∧
    (ActionSubmitSuggestion.run env um outS).events = [] := by
  refine ⟨rfl, ?_, rfl, ?_⟩
  · by_cases h1 : pyStrip (pyReplace um "/imagine" "") = "" <;>
      by_cases h2 : pyFalsy env.imageApiKey = true <;>
      simp [ActionGenerateImage.run, h1, h2]
  · cases outS with
    | ok => rfl
    | failAt st => cases st <;> rfl
